import Mathlib

/-!
Verification of the gapless.js playback core: a shallow embedding of the
xstate track machine (src/trackMachine.ts) and queue machine (the
createQueueMachine section of src/gaplessStateMachine.ts).

Modelling conventions:
* JS numbers for times and volumes are modelled as rationals (Rat);
  the queue index, which JS arithmetic can drive to -1, is an Int.
* Browser handles are modelled by their machine-relevant content: the
  HTML audio element by its volume / currentTime / duration / paused
  flag, the decoded AudioBuffer by its duration, the gain node by its
  gain value, and each AudioBufferSourceNode by a numeric handle id
  drawn from a fresh-id counter (an embedding artifact that lets us
  state that no handle is started twice).
* Side effects (Web Audio API calls, user callbacks, child-actor sends)
  are returned as explicit effect lists.
* Media-session actions, console logging and the animation-frame ids
  are modelled as no-ops / a boolean flag: they never touch the machine
  state that the transitions read.
* xstate self.send is modelled by an explicit event queue drained with
  fuel (self-send chains in this machine have depth at most two).
-/

namespace Gapless

/-- Playback backends of the track machine parallel region audioSource. -/
inductive AudioSrc
  | html
  | loadingWebAudio
  | webaudio
  deriving DecidableEq, Repr

/-- States of the track machine parallel region playback. -/
inductive Playback
  | paused
  | playing
  deriving DecidableEq, Repr

/-- The HTML5 audio element, reduced to the fields the machine reads. -/
structure HtmlAudio where
  volume : Rat
  currentTime : Rat
  duration : Rat
  paused : Bool
  deriving DecidableEq, Repr

/-- A decoded Web Audio buffer, reduced to its duration. -/
structure AudioBuf where
  duration : Rat
  deriving DecidableEq, Repr

/-- The gain node, reduced to its gain value. -/
structure GainNode where
  gain : Rat
  deriving DecidableEq, Repr

/-- TrackContext of trackMachine.ts.  bufferSourceNode holds the handle
id of the live AudioBufferSourceNode; nextNodeId is the fresh-handle
counter; hasProgressFrame stands for progressAnimationFrame being
non-null. -/
structure TrackContext where
  trackUrl : String
  idx : Nat
  volume : Rat
  webAudioIsDisabled : Bool
  currentTime : Rat
  duration : Rat
  audio : Option HtmlAudio
  hasAudioContext : Bool
  audioBuffer : Option AudioBuf
  bufferSourceNode : Option Nat
  gainNode : Option GainNode
  webAudioStartedPlayingAt : Rat
  webAudioPausedDuration : Rat
  webAudioPausedAt : Rat
  hasProgressFrame : Bool
  nextNodeId : Nat
  deriving DecidableEq, Repr

/-- Full configuration of one track machine: one state per parallel
region plus the extended context. -/
structure TrackState where
  src : AudioSrc
  playback : Playback
  ctx : TrackContext
  deriving DecidableEq, Repr

/-- Events of the track machine. -/
inductive TrackEvent
  | activate
  | deactivate
  | play
  | pause
  | ended
  | seek (time : Rat)
  | setVolumeEv (volume : Rat)
  | preloadEv
  | loadWebAudio
  | webAudioLoaded (buffer : AudioBuf)
  | webAudioError
  | switchToWebAudio
  | progressTick
  deriving DecidableEq, Repr

/-- Observable effects of one track machine step: Web Audio API calls
on buffer-source handles, the start of a fetch/decode pipeline, and the
user-facing callbacks. -/
inductive Fx
  | createNode (id : Nat)
  | startNode (id : Nat)
  | stopNode (id : Nat)
  | detachOnEnded (id : Nat)
  | fetchStart
  | cbTrackLoaded (idx : Nat)
  | cbTrackEnded (idx : Nat)
  | cbEnded
  | cbProgress
  deriving DecidableEq, Repr

/-- Math.max on rationals, written executably for kernel evaluation. -/
def rmax (a b : Rat) : Rat := if a ≤ b then b else a

/-- Math.min on rationals, written executably for kernel evaluation. -/
def rmin (a b : Rat) : Rat := if b ≤ a then b else a

/-- Math.max on integers, written executably for kernel evaluation. -/
def imax (a b : Int) : Int := if a ≤ b then b else a

/-- clamp to the unit interval, as Math.max(0, Math.min(1, v)). -/
def clamp01 (v : Rat) : Rat := rmax 0 (rmin 1 v)

/-- JavaScript a || b on numbers (0 is falsy). -/
def jsOr (a b : Rat) : Rat := if a = 0 then b else a

/-- Effects of stopping a buffer source: the onended listener is
detached before the stop call. -/
def stopFx (i : Nat) : List Fx := [Fx.detachOnEnded i, Fx.stopNode i]

/-- createAndStartBufferSource of trackMachine.ts: bail out when the
audio context or decoded buffer is missing, otherwise create the gain
node if needed, allocate a fresh buffer source, set the timing anchors
and start it at max(0, startTime). -/
def createAndStartBufferSource (c : TrackContext) (now startTime : Rat) :
    TrackContext × List Fx :=
  if c.hasAudioContext = false ∨ c.audioBuffer = none then (c, [])
  else
    let c1 := if c.gainNode = none then { c with gainNode := some { gain := c.volume } } else c
    let position := rmax 0 startTime
    let id := c1.nextNodeId
    ({ c1 with
        bufferSourceNode := some id
        webAudioStartedPlayingAt := now - position
        webAudioPausedDuration := 0
        webAudioPausedAt := 0
        nextNodeId := id + 1 },
      [Fx.createNode id, Fx.startNode id])

/-- destroyAudioElement action: drop the audio element, stop and drop
any buffer source (listener detached first), cancel the progress frame. -/
def destroyAudioElement (c : TrackContext) : TrackContext × List Fx :=
  let fx := match c.bufferSourceNode with
    | some i => stopFx i
    | none => []
  ({ c with audio := none, bufferSourceNode := none, hasProgressFrame := false }, fx)

/-- pausePlayback action: with a live buffer source and audio context,
freeze the exact position into currentTime, record pausedAt, stop and
drop the source; otherwise pause the audio element. -/
def pausePlayback (c : TrackContext) (now : Rat) : TrackContext × List Fx :=
  match c.bufferSourceNode, c.hasAudioContext with
  | some i, true =>
      ({ c with
          currentTime := rmax 0 (now - c.webAudioStartedPlayingAt)
          webAudioPausedAt := now
          bufferSourceNode := none }, stopFx i)
  | _, _ =>
      match c.audio with
      | some a => ({ c with audio := some { a with paused := true } }, [])
      | none => (c, [])

/-- cleanupWebAudio action: stop the buffer source (listener detached
first) without clearing the context field. -/
def cleanupWebAudio (c : TrackContext) : TrackContext × List Fx :=
  match c.bufferSourceNode with
  | some i => (c, stopFx i)
  | none => (c, [])

/-- createAudioElementIfNeeded action: lazily create the audio element
and the gain node. -/
def createAudioElementIfNeeded (c : TrackContext) : TrackContext :=
  let c1 := if c.audio = none then
      { c with audio := some { volume := c.volume, currentTime := 0, duration := 0, paused := true } }
    else c
  if c1.gainNode = none ∧ c1.hasAudioContext = true then
    { c1 with gainNode := some { gain := c1.volume } }
  else c1

/-- resumeWebAudio action: restart from the stored currentTime through
a fresh buffer source. -/
def resumeWebAudio (c : TrackContext) (now : Rat) : TrackContext × List Fx :=
  createAndStartBufferSource c now (rmax 0 c.currentTime)

/-- startPlayback action: with a decoded buffer and web audio enabled,
self-send SWITCH_TO_WEBAUDIO; otherwise play the audio element and, if
web audio is enabled, self-send LOAD_WEBAUDIO. -/
def startPlayback (c : TrackContext) : TrackContext × List TrackEvent :=
  if c.audioBuffer ≠ none ∧ c.webAudioIsDisabled = false then
    (c, [TrackEvent.switchToWebAudio])
  else
    match c.audio with
    | some a =>
        ({ c with audio := some { a with paused := false } },
          if c.webAudioIsDisabled = false then [TrackEvent.loadWebAudio] else [])
    | none => (c, [])

/-- seekWebAudio action: clamp the target below at 0 (and only below),
stop any live buffer source, store the position, and if one was live
create and start a fresh source at the target. -/
def seekWebAudio (c : TrackContext) (now t : Rat) : TrackContext × List Fx :=
  let time := rmax 0 t
  if c.audioBuffer = none ∨ c.hasAudioContext = false then (c, [])
  else
    let c1 := if c.gainNode = none then { c with gainNode := some { gain := c.volume } } else c
    let wasPlaying := c1.bufferSourceNode ≠ none
    let fx := match c1.bufferSourceNode with
      | some i => stopFx i
      | none => []
    let c2 := { c1 with bufferSourceNode := none, currentTime := time }
    if wasPlaying then
      let r := createAndStartBufferSource c2 now time
      (r.1, fx ++ r.2)
    else (c2, fx)

/-- seekHTML5 action: clamp below at 0 and set the element and stored
position. -/
def seekHTML5 (c : TrackContext) (t : Rat) : TrackContext :=
  let time := rmax 0 t
  match c.audio with
  | some a => { c with audio := some { a with currentTime := time }, currentTime := time }
  | none => c

/-- setVolume action of the track machine: clamp to the unit interval
and apply to the stored volume, the audio element and the gain node. -/
def setTrackVolume (c : TrackContext) (v : Rat) : TrackContext :=
  let volume := clamp01 v
  let c1 := { c with volume := volume }
  let c2 := match c1.audio with
    | some a => { c1 with audio := some { a with volume := volume } }
    | none => c1
  match c2.gainNode with
  | some g => { c2 with gainNode := some { g with gain := volume } }
  | none => c2

/-- preload action: (the element preload hint is not state we track)
self-send LOAD_WEBAUDIO when no buffer exists and web audio is enabled. -/
def preloadAction (c : TrackContext) : TrackContext × List TrackEvent :=
  (c, if c.audioBuffer = none ∧ c.webAudioIsDisabled = false then
        [TrackEvent.loadWebAudio] else [])

/-- storeWebAudioBuffer action: store the decoded buffer and fire the
onTrackLoaded callback. -/
def storeWebAudioBuffer (c : TrackContext) (b : AudioBuf) : TrackContext × List Fx :=
  ({ c with audioBuffer := some b }, [Fx.cbTrackLoaded c.idx])

/-- setupWebAudio entry action of the webaudio state: read the position
from the element (JS || chain), start a fresh source when the element
was playing, then drop the element. -/
def setupWebAudio (c : TrackContext) (now : Rat) : TrackContext × List Fx :=
  if c.hasAudioContext = false ∨ c.audioBuffer = none ∨ c.gainNode = none then (c, [])
  else
    let currentTime := match c.audio with
      | some a => jsOr a.currentTime (jsOr c.currentTime 0)
      | none => jsOr c.currentTime 0
    let wasPlaying : Bool := match c.audio with
      | some a => !a.paused
      | none => false
    let c1 := { c with currentTime := currentTime }
    let r := if wasPlaying then createAndStartBufferSource c1 now currentTime else (c1, [])
    ({ r.1 with audio := none }, r.2)

/-- updateProgress action: recompute currentTime and duration from the
active backend. -/
def updateProgress (c : TrackContext) (now : Rat) : TrackContext :=
  let currentTime :=
    if c.bufferSourceNode ≠ none ∧ c.hasAudioContext = true then
      rmax 0 (now - c.webAudioStartedPlayingAt)
    else match c.audio with
      | some a => a.currentTime
      | none =>
          if c.audioBuffer ≠ none ∧ c.bufferSourceNode = none then c.currentTime else 0
  let duration := match c.audioBuffer with
    | some b => b.duration
    | none => match c.audio with
      | some a => a.duration
      | none => 0
  { c with currentTime := currentTime, duration := duration }

/-- handleEnded action: cancel progress, clear the buffer source and
fire the onTrackEnded and onEnded callbacks. -/
def handleEnded (c : TrackContext) : TrackContext × List Fx :=
  ({ c with hasProgressFrame := false, bufferSourceNode := none },
    [Fx.cbTrackEnded c.idx, Fx.cbEnded])

/-- canUseWebAudio guard. -/
def canUseWebAudio (c : TrackContext) : Bool :=
  !c.webAudioIsDisabled && c.hasAudioContext && c.audioBuffer.isNone

/-- isUsingWebAudio guard. -/
def isUsingWebAudio (c : TrackContext) : Bool :=
  c.audioBuffer.isSome && !c.webAudioIsDisabled

/-- One microstep of the track machine: both parallel regions take the
transitions the event enables (audioSource region first, as in document
order), root handlers fire for events no region handles.  Returns the
new configuration, the effect list and the self-sent events. -/
def trackStep1 (s : TrackState) (e : TrackEvent) (now : Rat) :
    TrackState × List Fx × List TrackEvent :=
  match e with
  | .activate =>
      match s.playback with
      | .paused => ({ s with ctx := createAudioElementIfNeeded s.ctx }, [], [])
      | .playing => (s, [], [])
  | .deactivate =>
      let r1 : AudioSrc × TrackContext × List Fx :=
        match s.src with
        | .webaudio =>
            let r := cleanupWebAudio s.ctx
            (AudioSrc.html, r.1, r.2)
        | src => (src, s.ctx, [])
      match s.playback with
      | .paused =>
          let r2 := destroyAudioElement r1.2.1
          ({ src := r1.1, playback := .paused, ctx := r2.1 }, r1.2.2 ++ r2.2, [])
      | .playing =>
          let r2 := pausePlayback r1.2.1 now
          let r3 := destroyAudioElement r2.1
          ({ src := r1.1, playback := .paused,
             ctx := { r3.1 with hasProgressFrame := false } },
            r1.2.2 ++ r2.2 ++ r3.2, [])
  | .play =>
      match s.playback with
      | .playing => (s, [], [])
      | .paused =>
          if isUsingWebAudio s.ctx then
            let r := resumeWebAudio s.ctx now
            ({ s with playback := .playing, ctx := { r.1 with hasProgressFrame := true } },
              r.2, [])
          else
            let c1 := createAudioElementIfNeeded s.ctx
            let r := startPlayback c1
            ({ s with playback := .playing, ctx := { r.1 with hasProgressFrame := true } },
              [], r.2)
  | .pause =>
      match s.playback with
      | .playing =>
          let r := pausePlayback s.ctx now
          ({ s with playback := .paused, ctx := { r.1 with hasProgressFrame := false } },
            r.2, [])
      | .paused => (s, [], [])
  | .ended =>
      match s.playback with
      | .playing =>
          let r := handleEnded s.ctx
          ({ s with playback := .paused, ctx := { r.1 with hasProgressFrame := false } },
            r.2, [])
      | .paused => (s, [], [])
  | .seek t =>
      if isUsingWebAudio s.ctx then
        let r := seekWebAudio s.ctx now t
        ({ s with ctx := r.1 }, r.2, [])
      else
        ({ s with ctx := seekHTML5 s.ctx t }, [], [])
  | .setVolumeEv v => ({ s with ctx := setTrackVolume s.ctx v }, [], [])
  | .preloadEv =>
      let r := preloadAction s.ctx
      ({ s with ctx := r.1 }, [], r.2)
  | .loadWebAudio =>
      match s.src with
      | .html =>
          if canUseWebAudio s.ctx then
            ({ s with src := .loadingWebAudio }, [Fx.fetchStart], [])
          else (s, [], [])
      | _ => (s, [], [])
  | .switchToWebAudio =>
      match s.src with
      | .html =>
          if s.ctx.audioBuffer.isSome then
            let r := setupWebAudio s.ctx now
            ({ s with src := .webaudio, ctx := r.1 }, r.2, [])
          else (s, [], [])
      | _ => (s, [], [])
  | .webAudioLoaded b =>
      match s.src with
      | .loadingWebAudio =>
          let r1 := storeWebAudioBuffer s.ctx b
          let r2 := setupWebAudio r1.1 now
          ({ s with src := .webaudio, ctx := r2.1 }, r1.2 ++ r2.2, [])
      | _ => (s, [], [])
  | .webAudioError =>
      match s.src with
      | .loadingWebAudio => ({ s with src := .html }, [], [])
      | _ => (s, [], [])
  | .progressTick =>
      match s.playback with
      | .playing => ({ s with ctx := updateProgress s.ctx now }, [Fx.cbProgress], [])
      | .paused => (s, [], [])

/-- Drain the pending event queue with fuel (self-send chains in this
machine have depth at most two, so any fuel at least 4 is exact). -/
def trackDrain : Nat → TrackState → List TrackEvent → Rat → TrackState × List Fx
  | 0, s, _, _ => (s, [])
  | _ + 1, s, [], _ => (s, [])
  | n + 1, s, e :: rest, now =>
      let r := trackStep1 s e now
      let r2 := trackDrain n r.1 (rest ++ r.2.2) now
      (r2.1, r.2.1 ++ r2.2)

/-- Deliver one external event to the track machine and run all
resulting self-sends to completion. -/
def trackSend (s : TrackState) (e : TrackEvent) (now : Rat) : TrackState × List Fx :=
  trackDrain 8 s [e] now

/-- Run the track machine over a list of timed external events,
concatenating the effect traces. -/
def runTrack (s : TrackState) : List (TrackEvent × Rat) → TrackState × List Fx
  | [] => (s, [])
  | er :: rest =>
      let r := trackSend s er.1 er.2
      let r2 := runTrack r.1 rest
      (r2.1, r.2 ++ r2.2)

/-- The initial configuration of a spawned track machine: the context
function of createTrackMachine (JS || defaulting on volume and idx),
initial states html and paused. -/
def trackInit (url : String) (idx : Nat) (vol : Rat) (disabled : Bool) : TrackState :=
  { src := .html
    playback := .paused
    ctx :=
      { trackUrl := url
        idx := idx
        volume := jsOr vol 1
        webAudioIsDisabled := disabled
        currentTime := 0
        duration := 0
        audio := none
        hasAudioContext := true
        audioBuffer := none
        bufferSourceNode := none
        gainNode := none
        webAudioStartedPlayingAt := 0
        webAudioPausedDuration := 0
        webAudioPausedAt := 0
        hasProgressFrame := false
        nextNodeId := 0 } }

/-! ## Queue machine (createQueueMachine of gaplessStateMachine.ts) -/

/-- Top-level states of the queue machine. -/
inductive QState
  | playing
  | paused
  | ended
  deriving DecidableEq, Repr

/-- A spawned track actor: its machine configuration plus an actor id
used for the by-identity lookup of REMOVE_TRACK (an embedding artifact
standing for JS reference identity). -/
structure TrackActorInst where
  aid : Nat
  st : TrackState
  deriving DecidableEq, Repr

/-- QueueContext of the queue machine; currentTrackIdx is an Int
because the JS index arithmetic can produce -1.  nextAid is the
fresh-actor-id counter backing reference identity. -/
structure QueueContext where
  tracks : List String
  currentTrackIdx : Int
  volume : Rat
  webAudioIsDisabled : Bool
  trackActors : List TrackActorInst
  nextAid : Nat
  deriving DecidableEq, Repr

/-- Full configuration of the queue machine. -/
structure QueueConfig where
  qstate : QState
  ctx : QueueContext
  deriving DecidableEq, Repr

/-- Events of the queue machine. -/
inductive QueueEvent
  | playEv
  | pauseEv
  | nextEv
  | previousEv
  | gotoEv (index : Int) (playImmediately : Bool)
  | trackEnded
  | trackLoaded (trackIndex : Int)
  | seekEv (time : Rat)
  | setVolumeEv (volume : Rat)
  | addTrackEv (trackUrl : String)
  | removeTrackEv (aid : Nat)
  | internalUpdateMediaSession
  deriving DecidableEq, Repr

/-- Observable effects of a queue machine step: the user callbacks and
the events sent to child track actors (with the track effects they in
turn produce). -/
inductive QFx
  | cbEnded
  | cbStartNewTrack
  | cbPlayNextTrack
  | cbPlayPreviousTrack
  | sendTrk (pos : Nat) (ev : TrackEvent)
  | trkFx (pos : Nat) (fx : Fx)
  deriving DecidableEq, Repr

/-- The actor at a JS index: negative or out-of-range indices read as
undefined. -/
def actorAt (c : QueueContext) (i : Int) : Option TrackActorInst :=
  if 0 ≤ i then c.trackActors.get? i.toNat else none

/-- Send one event to the actor at index i (a no-op when the index is
empty, matching the if (currentActor) guards in the source). -/
def sendToTrackAt (c : QueueContext) (i : Int) (e : TrackEvent) (now : Rat) :
    QueueContext × List QFx :=
  match actorAt c i with
  | none => (c, [])
  | some a =>
      let r := trackSend a.st e now
      ({ c with trackActors := c.trackActors.set i.toNat { a with st := r.1 } },
        QFx.sendTrk i.toNat e :: r.2.map (QFx.trkFx i.toNat))

/-- forEach over the actor list sending PAUSE, carrying the running
position for the effect log. -/
def pauseList (now : Rat) : Nat → List TrackActorInst → List TrackActorInst × List QFx
  | _, [] => ([], [])
  | pos, a :: rest =>
      let r := trackSend a.st TrackEvent.pause now
      let r2 := pauseList now (pos + 1) rest
      ({ a with st := r.1 } :: r2.1,
        (QFx.sendTrk pos TrackEvent.pause :: r.2.map (QFx.trkFx pos)) ++ r2.2)

/-- pauseAllTracks action. -/
def pauseAllTracksAct (c : QueueContext) (now : Rat) : QueueContext × List QFx :=
  let r := pauseList now 0 c.trackActors
  ({ c with trackActors := r.1 }, r.2)

/-- autoAdvanceToNext action: deactivate the current actor, and when a
next actor exists activate and play it, preload the track after it when
that exists, fire the next-track and new-track callbacks and advance
currentTrackIdx. -/
def autoAdvanceToNext (c : QueueContext) (now : Rat) : QueueContext × List QFx :=
  let r1 := sendToTrackAt c c.currentTrackIdx .deactivate now
  let c1 := r1.1
  let nextIdx := c1.currentTrackIdx + 1
  if nextIdx < (c1.trackActors.length : Int) then
    let r2 := sendToTrackAt c1 nextIdx .activate now
    let r3 := sendToTrackAt r2.1 nextIdx .play now
    let c3 := r3.1
    let trackAfterNext := nextIdx + 1
    let r4 :=
      if trackAfterNext < (c3.trackActors.length : Int) then
        sendToTrackAt c3 trackAfterNext .preloadEv now
      else (c3, [])
    ({ r4.1 with currentTrackIdx := nextIdx },
      r1.2 ++ r2.2 ++ r3.2 ++ r4.2 ++ [QFx.cbPlayNextTrack, QFx.cbStartNewTrack])
  else (c1, r1.2)

/-- playNext action (NEXT while playing): deactivate current, and when
a next actor exists self-send GOTO and PLAY and fire the next-track
callback. -/
def playNextAct (c : QueueContext) (now : Rat) :
    QueueContext × List QFx × List QueueEvent :=
  let r1 := sendToTrackAt c c.currentTrackIdx .deactivate now
  let nextIdx := r1.1.currentTrackIdx + 1
  if nextIdx < (r1.1.trackActors.length : Int) then
    (r1.1, r1.2 ++ [QFx.cbPlayNextTrack],
      [QueueEvent.gotoEv nextIdx false, QueueEvent.playEv])
  else (r1.1, r1.2, [])

/-- gotoNext action (NEXT while paused): as playNext but without the
self-sent PLAY. -/
def gotoNextAct (c : QueueContext) (now : Rat) :
    QueueContext × List QFx × List QueueEvent :=
  let r1 := sendToTrackAt c c.currentTrackIdx .deactivate now
  let nextIdx := r1.1.currentTrackIdx + 1
  if nextIdx < (r1.1.trackActors.length : Int) then
    (r1.1, r1.2 ++ [QFx.cbPlayNextTrack], [QueueEvent.gotoEv nextIdx false])
  else (r1.1, r1.2, [])

/-- The current position read from the current actor snapshot
(undefined and the JS || collapse to 0 when the actor is missing). -/
def currentActorTime (c : QueueContext) : Rat :=
  match actorAt c c.currentTrackIdx with
  | some a => a.st.ctx.currentTime
  | none => 0

/-- playPrevious action (PREVIOUS while playing): beyond the 8s grace
threshold just seek the current track to 0; otherwise deactivate it,
self-send GOTO to the clamped previous index and PLAY, and fire the
previous-track callback. -/
def playPreviousAct (c : QueueContext) (now : Rat) :
    QueueContext × List QFx × List QueueEvent :=
  if 8 < currentActorTime c then
    let r := sendToTrackAt c c.currentTrackIdx (.seek 0) now
    (r.1, r.2, [])
  else
    let r := sendToTrackAt c c.currentTrackIdx .deactivate now
    let prevIdx := imax 0 (r.1.currentTrackIdx - 1)
    (r.1, r.2 ++ [QFx.cbPlayPreviousTrack],
      [QueueEvent.gotoEv prevIdx false, QueueEvent.playEv])

/-- gotoPrevious action (PREVIOUS while paused): as playPrevious but
without the self-sent PLAY. -/
def gotoPreviousAct (c : QueueContext) (now : Rat) :
    QueueContext × List QFx × List QueueEvent :=
  if 8 < currentActorTime c then
    let r := sendToTrackAt c c.currentTrackIdx (.seek 0) now
    (r.1, r.2, [])
  else
    let r := sendToTrackAt c c.currentTrackIdx .deactivate now
    let prevIdx := imax 0 (r.1.currentTrackIdx - 1)
    (r.1, r.2 ++ [QFx.cbPlayPreviousTrack], [QueueEvent.gotoEv prevIdx false])

/-- addTrack action: append the url and spawn a new actor whose idx is
the previous playlist length. -/
def addTrackAct (c : QueueContext) (url : String) : QueueContext :=
  { c with
      tracks := c.tracks ++ [url]
      trackActors := c.trackActors ++
        [{ aid := c.nextAid
           st := trackInit url c.tracks.length c.volume c.webAudioIsDisabled }]
      nextAid := c.nextAid + 1 }

/-- Array.prototype.findIndex by actor identity, as an Option. -/
def findIndexAid (a : Nat) : List TrackActorInst → Option Nat
  | [] => none
  | t :: rest => if t.aid = a then some 0 else (findIndexAid a rest).map (· + 1)

/-- removeTrack action: locate the actor by identity, splice it out of
both lists, and update currentTrackIdx exactly as the source does
(newLength - 1 when the index would be at or past the new length and
positive, otherwise unchanged). -/
def removeTrackAct (c : QueueContext) (a : Nat) : QueueContext :=
  match findIndexAid a c.trackActors with
  | none => c
  | some index =>
      let newLength : Int := (c.trackActors.length : Int) - 1
      let newIdx :=
        if newLength ≤ c.currentTrackIdx ∧ 0 < c.currentTrackIdx then newLength - 1
        else c.currentTrackIdx
      { c with
          tracks := c.tracks.eraseIdx index
          trackActors := c.trackActors.eraseIdx index
          currentTrackIdx := newIdx }

/-- handleTrackLoaded action: when the loaded track is the current one,
preload the next one if it exists. -/
def handleTrackLoadedAct (c : QueueContext) (trackIndex : Int) (now : Rat) :
    QueueContext × List QFx :=
  if trackIndex = c.currentTrackIdx then
    let nextIdx := c.currentTrackIdx + 1
    if nextIdx < (c.trackActors.length : Int) then
      sendToTrackAt c nextIdx .preloadEv now
    else (c, [])
  else (c, [])

/-- isLastTrack guard: currentTrackIdx >= trackActors.length - 1. -/
def isLastTrack (c : QueueContext) : Bool :=
  (c.trackActors.length : Int) - 1 ≤ c.currentTrackIdx

/-- The GOTO action list of the playing and ended states: pauseAll,
update the index, seek the new current track to 0, play it, fire the
new-track callback, preload it. -/
def gotoActionsPlay (c : QueueContext) (i : Int) (now : Rat) : QueueContext × List QFx :=
  let r1 := pauseAllTracksAct c now
  let c1 := { r1.1 with currentTrackIdx := i }
  let r2 := sendToTrackAt c1 c1.currentTrackIdx (.seek 0) now
  let r3 := sendToTrackAt r2.1 r2.1.currentTrackIdx .play now
  let r4 := sendToTrackAt r3.1 r3.1.currentTrackIdx .preloadEv now
  (r4.1, r1.2 ++ r2.2 ++ r3.2 ++ [QFx.cbStartNewTrack] ++ r4.2)

/-- The GOTO action list of the paused state: no play and no
new-track callback. -/
def gotoActionsPaused (c : QueueContext) (i : Int) (now : Rat) : QueueContext × List QFx :=
  let r1 := pauseAllTracksAct c now
  let c1 := { r1.1 with currentTrackIdx := i }
  let r2 := sendToTrackAt c1 c1.currentTrackIdx (.seek 0) now
  let r3 := sendToTrackAt r2.1 r2.1.currentTrackIdx .preloadEv now
  (r3.1, r1.2 ++ r2.2 ++ r3.2)

/-- The PLAY action list of the ended state: reset to track 0, activate
and play it, fire the new-track callback. -/
def endedPlayActions (c : QueueContext) (now : Rat) : QueueContext × List QFx :=
  let c1 := { c with currentTrackIdx := 0 }
  let r1 := sendToTrackAt c1 c1.currentTrackIdx .activate now
  let r2 := sendToTrackAt r1.1 r1.1.currentTrackIdx .play now
  (r2.1, r1.2 ++ r2.2 ++ [QFx.cbStartNewTrack])

/-- One microstep of the queue machine.  Media-session actions are
no-ops on machine state and are omitted. -/
def queueStep1 (q : QueueConfig) (e : QueueEvent) (now : Rat) :
    QueueConfig × List QFx × List QueueEvent :=
  match q.qstate, e with
  | .playing, .pauseEv =>
      let r := sendToTrackAt q.ctx q.ctx.currentTrackIdx .pause now
      ({ qstate := .paused, ctx := r.1 }, r.2, [])
  | .playing, .trackEnded =>
      if isLastTrack q.ctx then
        ({ qstate := .ended, ctx := q.ctx }, [QFx.cbEnded], [])
      else
        let r := autoAdvanceToNext q.ctx now
        ({ qstate := .playing, ctx := r.1 }, r.2, [])
  | .playing, .nextEv =>
      let r := playNextAct q.ctx now
      ({ qstate := .playing, ctx := r.1 }, r.2.1, r.2.2)
  | .playing, .previousEv =>
      let r := playPreviousAct q.ctx now
      ({ qstate := .playing, ctx := r.1 }, r.2.1, r.2.2)
  | .playing, .gotoEv i _ =>
      let r := gotoActionsPlay q.ctx i now
      ({ qstate := .playing, ctx := r.1 }, r.2, [])
  | .playing, .seekEv t =>
      let r := sendToTrackAt q.ctx q.ctx.currentTrackIdx (.seek t) now
      ({ qstate := .playing, ctx := r.1 }, r.2, [])
  | .playing, .setVolumeEv v =>
      ({ qstate := .playing, ctx := { q.ctx with volume := clamp01 v } }, [], [])
  | .playing, .addTrackEv url =>
      ({ qstate := .playing, ctx := addTrackAct q.ctx url }, [], [])
  | .playing, .removeTrackEv a =>
      ({ qstate := .playing, ctx := removeTrackAct q.ctx a }, [], [])
  | .playing, .trackLoaded k =>
      let r := handleTrackLoadedAct q.ctx k now
      ({ qstate := .playing, ctx := r.1 }, r.2, [])
  | .paused, .playEv =>
      let r := sendToTrackAt q.ctx q.ctx.currentTrackIdx .play now
      ({ qstate := .playing, ctx := r.1 }, r.2, [])
  | .paused, .nextEv =>
      let r := gotoNextAct q.ctx now
      ({ qstate := .paused, ctx := r.1 }, r.2.1, r.2.2)
  | .paused, .previousEv =>
      let r := gotoPreviousAct q.ctx now
      ({ qstate := .paused, ctx := r.1 }, r.2.1, r.2.2)
  | .paused, .gotoEv i _ =>
      let r := gotoActionsPaused q.ctx i now
      ({ qstate := .paused, ctx := r.1 }, r.2, [])
  | .paused, .seekEv t =>
      let r := sendToTrackAt q.ctx q.ctx.currentTrackIdx (.seek t) now
      ({ qstate := .paused, ctx := r.1 }, r.2, [])
  | .paused, .setVolumeEv v =>
      ({ qstate := .paused, ctx := { q.ctx with volume := clamp01 v } }, [], [])
  | .paused, .addTrackEv url =>
      ({ qstate := .paused, ctx := addTrackAct q.ctx url }, [], [])
  | .paused, .removeTrackEv a =>
      ({ qstate := .paused, ctx := removeTrackAct q.ctx a }, [], [])
  | .paused, .trackLoaded k =>
      let r := handleTrackLoadedAct q.ctx k now
      ({ qstate := .paused, ctx := r.1 }, r.2, [])
  | .ended, .playEv =>
      let r := endedPlayActions q.ctx now
      ({ qstate := .playing, ctx := r.1 }, r.2, [])
  | .ended, .gotoEv i _ =>
      let r := gotoActionsPlay q.ctx i now
      ({ qstate := .paused, ctx := r.1 }, r.2, [])
  | .ended, .setVolumeEv v =>
      ({ qstate := .ended, ctx := { q.ctx with volume := clamp01 v } }, [], [])
  | .ended, .addTrackEv url =>
      ({ qstate := .ended, ctx := addTrackAct q.ctx url }, [], [])
  | .ended, .removeTrackEv a =>
      ({ qstate := .ended, ctx := removeTrackAct q.ctx a }, [], [])
  | .ended, .trackLoaded k =>
      let r := handleTrackLoadedAct q.ctx k now
      ({ qstate := .ended, ctx := r.1 }, r.2, [])
  | _, _ => (q, [], [])

/-- Drain the queue machine self-send queue with fuel (chains here have
depth at most two). -/
def queueDrain : Nat → QueueConfig → List QueueEvent → Rat → QueueConfig × List QFx
  | 0, q, _, _ => (q, [])
  | _ + 1, q, [], _ => (q, [])
  | n + 1, q, e :: rest, now =>
      let r := queueStep1 q e now
      let r2 := queueDrain n r.1 (rest ++ r.2.2) now
      (r2.1, r.2.1 ++ r2.2)

/-- Deliver one external event to the queue machine and run all
resulting self-sends to completion. -/
def queueSend (q : QueueConfig) (e : QueueEvent) (now : Rat) : QueueConfig × List QFx :=
  queueDrain 8 q [e] now

/-- The initial queue configuration: context function plus the
spawnInitialTracks and loadCurrentTrack entry actions (initial state
paused, volume 1, one actor per url with idx equal to its position). -/
def queueInit (tracks : List String) (disabled : Bool) (now : Rat) :
    QueueConfig × List QFx :=
  let actors := tracks.mapIdx (fun i url => { aid := i, st := trackInit url i 1 disabled })
  let c : QueueContext :=
    { tracks := tracks
      currentTrackIdx := 0
      volume := 1
      webAudioIsDisabled := disabled
      trackActors := actors
      nextAid := tracks.length }
  let r := sendToTrackAt c 0 .preloadEv now
  ({ qstate := .paused, ctx := r.1 }, r.2)

/-! ## Basic lemmas about sends -/

@[simp] theorem sendToTrackAt_currentTrackIdx (c : QueueContext) (i : Int)
    (e : TrackEvent) (now : Rat) :
    (sendToTrackAt c i e now).1.currentTrackIdx = c.currentTrackIdx := by
  unfold sendToTrackAt
  cases actorAt c i <;> simp

@[simp] theorem sendToTrackAt_volume (c : QueueContext) (i : Int)
    (e : TrackEvent) (now : Rat) :
    (sendToTrackAt c i e now).1.volume = c.volume := by
  unfold sendToTrackAt
  cases actorAt c i <;> simp

@[simp] theorem sendToTrackAt_tracks (c : QueueContext) (i : Int)
    (e : TrackEvent) (now : Rat) :
    (sendToTrackAt c i e now).1.tracks = c.tracks := by
  unfold sendToTrackAt
  cases actorAt c i <;> simp

@[simp] theorem sendToTrackAt_length (c : QueueContext) (i : Int)
    (e : TrackEvent) (now : Rat) :
    (sendToTrackAt c i e now).1.trackActors.length = c.trackActors.length := by
  unfold sendToTrackAt
  cases actorAt c i <;> simp

theorem pauseList_length (now : Rat) (pos : Nat) (l : List TrackActorInst) :
    (pauseList now pos l).1.length = l.length := by
  induction l generalizing pos with
  | nil => rfl
  | cons a rest ih => simp [pauseList, ih]

@[simp] theorem pauseAllTracksAct_currentTrackIdx (c : QueueContext) (now : Rat) :
    (pauseAllTracksAct c now).1.currentTrackIdx = c.currentTrackIdx := rfl

@[simp] theorem pauseAllTracksAct_volume (c : QueueContext) (now : Rat) :
    (pauseAllTracksAct c now).1.volume = c.volume := rfl

@[simp] theorem pauseAllTracksAct_length (c : QueueContext) (now : Rat) :
    (pauseAllTracksAct c now).1.trackActors.length = c.trackActors.length := by
  simp [pauseAllTracksAct, pauseList_length]

theorem gotoActionsPlay_currentTrackIdx (c : QueueContext) (i : Int) (now : Rat) :
    (gotoActionsPlay c i now).1.currentTrackIdx = i := by
  simp [gotoActionsPlay]

theorem gotoActionsPaused_currentTrackIdx (c : QueueContext) (i : Int) (now : Rat) :
    (gotoActionsPaused c i now).1.currentTrackIdx = i := by
  simp [gotoActionsPaused]

theorem endedPlayActions_currentTrackIdx (c : QueueContext) (now : Rat) :
    (endedPlayActions c now).1.currentTrackIdx = 0 := by
  simp [endedPlayActions]

/-! ## C10: volume, add, remove and track-loaded events are internal -/

/-- C10: in every queue state (playing, paused and ended), processing a
SET_VOLUME, ADD_TRACK, REMOVE_TRACK or TRACK_LOADED event leaves the
queue playback state unchanged: these transitions have no target
state. -/
theorem internal_events_keep_queue_state (qs : QState) (c : QueueContext)
    (now : Rat) (v : Rat) (url : String) (a : Nat) (k : Int) :
    (queueSend { qstate := qs, ctx := c } (.setVolumeEv v) now).1.qstate = qs ∧
    (queueSend { qstate := qs, ctx := c } (.addTrackEv url) now).1.qstate = qs ∧
    (queueSend { qstate := qs, ctx := c } (.removeTrackEv a) now).1.qstate = qs ∧
    (queueSend { qstate := qs, ctx := c } (.trackLoaded k) now).1.qstate = qs := by
  cases qs <;>
    refine ⟨?_, ?_, ?_, ?_⟩ <;>
    simp [queueSend, queueDrain, queueStep1]

/-! ## C2: end of the last track, ended state, replay from the start -/

/-- C2: while playing, a TRACK_ENDED from the last track (isLastTrack
guard) moves the queue to ended and fires the ended callback exactly
once; a PLAY from ended resets currentTrackIdx to 0 and moves back to
playing. -/
theorem last_track_ended_then_play (c : QueueContext) (now : Rat)
    (hlast : isLastTrack c = true) :
    (queueSend { qstate := .playing, ctx := c } .trackEnded now).1.qstate = .ended ∧
    (queueSend { qstate := .playing, ctx := c } .trackEnded now).2.count QFx.cbEnded = 1 ∧
    (queueSend (queueSend { qstate := .playing, ctx := c } .trackEnded now).1
        .playEv now).1.qstate = .playing ∧
    (queueSend (queueSend { qstate := .playing, ctx := c } .trackEnded now).1
        .playEv now).1.ctx.currentTrackIdx = 0 := by
  refine ⟨?_, ?_, ?_, ?_⟩ <;>
    simp [queueSend, queueDrain, queueStep1, hlast, endedPlayActions]

/-! ## C1: gotoTrack with playImmediately -/

/-- C1 counterexample: on a fresh two-track queue (state paused),
gotoTrack(1, true) updates currentTrackIdx but leaves the queue paused:
the machine GOTO handlers ignore the playImmediately flag, so the queue
does not end up playing. -/
theorem goto_playImmediately_counterexample :
    ((queueInit ["a", "b"] false 0).1.qstate = QState.paused) ∧
    (queueSend ((queueInit ["a", "b"] false 0).1)
        (.gotoEv 1 true) 0).1.qstate ≠ QState.playing ∧
    (queueSend ((queueInit ["a", "b"] false 0).1)
        (.gotoEv 1 true) 0).1.qstate = QState.paused ∧
    (queueSend ((queueInit ["a", "b"] false 0).1)
        (.gotoEv 1 true) 0).1.ctx.currentTrackIdx = 1 := by
  decide

/-- C1 amended: for every valid index i, gotoTrack(i, true) results in
currentTrackIdx = i in every queue state; the queue is in state playing
only when it already was playing, and is paused when it started paused
or ended (GOTO ignores playImmediately). -/
theorem goto_sets_index_state_by_origin (c : QueueContext) (i : Nat) (now : Rat)
    (_hi : i < c.trackActors.length) :
    ((queueSend { qstate := .playing, ctx := c } (.gotoEv i true) now).1.qstate
        = .playing ∧
      (queueSend { qstate := .playing, ctx := c } (.gotoEv i true) now).1.ctx.currentTrackIdx
        = i) ∧
    ((queueSend { qstate := .paused, ctx := c } (.gotoEv i true) now).1.qstate
        = .paused ∧
      (queueSend { qstate := .paused, ctx := c } (.gotoEv i true) now).1.ctx.currentTrackIdx
        = i) ∧
    ((queueSend { qstate := .ended, ctx := c } (.gotoEv i true) now).1.qstate
        = .paused ∧
      (queueSend { qstate := .ended, ctx := c } (.gotoEv i true) now).1.ctx.currentTrackIdx
        = i) := by
  refine ⟨⟨?_, ?_⟩, ⟨?_, ?_⟩, ⟨?_, ?_⟩⟩ <;>
    simp [queueSend, queueDrain, queueStep1, gotoActionsPlay_currentTrackIdx,
      gotoActionsPaused_currentTrackIdx]

/-- Witness for C1 amended on a concrete two-track queue. -/
theorem goto_sets_index_state_by_origin_witness :
    1 < (queueInit ["a", "b"] false 0).1.ctx.trackActors.length ∧
    (queueSend { qstate := .playing, ctx := (queueInit ["a", "b"] false 0).1.ctx }
        (.gotoEv 1 true) 0).1.qstate = .playing :=
  ⟨by decide,
    (goto_sets_index_state_by_origin ((queueInit ["a", "b"] false 0).1.ctx) 1 0
      (by decide)).1.1⟩

/-- Witness for C2 on a concrete one-track queue that is playing. -/
theorem last_track_ended_then_play_witness :
    isLastTrack ((queueSend ((queueInit ["a"] false 0).1) .playEv 0).1.ctx) = true ∧
    (queueSend (queueSend ((queueInit ["a"] false 0).1) .playEv 0).1
        .trackEnded 0).1.qstate = .ended := by
  refine ⟨by decide, ?_⟩
  exact (last_track_ended_then_play
    ((queueSend ((queueInit ["a"] false 0).1) .playEv 0).1.ctx) 0 (by decide)).1

/-! ## C4: seek clamping -/

/-- A track already on the precise backend, mid-play, duration 10s. -/
def webAudioSeekDemo : TrackState :=
  { src := .webaudio
    playback := .playing
    ctx := { (trackInit "a" 0 1 false).ctx with
              audioBuffer := some { duration := 10 }
              duration := 10
              bufferSourceNode := some 0
              nextNodeId := 1 } }

/-- A track on the streaming backend with a live element, duration 10s. -/
def htmlSeekDemo : TrackState :=
  { src := .html
    playback := .paused
    ctx := { (trackInit "a" 0 1 false).ctx with
              audio := some { volume := 1, currentTime := 0, duration := 10, paused := true }
              duration := 10 } }

/-- C4 counterexample: seeking to 15 on a track of duration 10 stores
position 15 on both backends; the machine seek actions only clamp
below at 0, never above at the duration. -/
theorem seek_beyond_duration_not_clamped :
    (trackSend webAudioSeekDemo (.seek 15) 0).1.ctx.currentTime = 15 ∧
    (trackSend webAudioSeekDemo (.seek 15) 0).1.ctx.duration = 10 ∧
    (trackSend htmlSeekDemo (.seek 15) 0).1.ctx.currentTime = 15 ∧
    (trackSend htmlSeekDemo (.seek 15) 0).1.ctx.audio =
      some { volume := 1, currentTime := 15, duration := 10, paused := true } := by
  decide

theorem seekWebAudio_currentTime (c : TrackContext) (now t : Rat)
    (hb : c.audioBuffer ≠ none) (hc : c.hasAudioContext = true) :
    (seekWebAudio c now t).1.currentTime = rmax 0 t := by
  unfold seekWebAudio createAndStartBufferSource
  simp only [hb, hc]
  cases hg : c.gainNode <;> cases hn : c.bufferSourceNode <;> simp [hb, hc, hg, hn]

theorem seekHTML5_currentTime (c : TrackContext) (t : Rat)
    (ha : c.audio.isSome) :
    (seekHTML5 c t).currentTime = rmax 0 t := by
  unfold seekHTML5
  cases h : c.audio with
  | none => simp [h] at ha
  | some a => simp [h]

/-- C4 amended: on either backend and in either playback state, a seek
to t stores position max(0, t): targets below 0 are clamped to 0, but
targets beyond the duration are not clamped. -/
theorem seek_stores_lower_clamped_target (s : TrackState) (t now : Rat) :
    (isUsingWebAudio s.ctx = true → s.ctx.hasAudioContext = true →
      (trackSend s (.seek t) now).1.ctx.currentTime = rmax 0 t) ∧
    (isUsingWebAudio s.ctx = false → s.ctx.audio.isSome →
      (trackSend s (.seek t) now).1.ctx.currentTime = rmax 0 t) := by
  constructor
  · intro h1 h2
    have hb : s.ctx.audioBuffer ≠ none := by
      unfold isUsingWebAudio at h1
      cases h : s.ctx.audioBuffer <;> simp [h] at h1 ⊢
    simp [trackSend, trackDrain, trackStep1, h1, seekWebAudio_currentTime _ _ _ hb h2]
  · intro h1 h2
    simp [trackSend, trackDrain, trackStep1, h1, seekHTML5_currentTime _ _ h2]

/-- Witness for C4 amended: a negative seek target on both backends is
clamped to 0. -/
theorem seek_stores_lower_clamped_target_witness :
    (isUsingWebAudio webAudioSeekDemo.ctx = true ∧
      webAudioSeekDemo.ctx.hasAudioContext = true ∧
      (trackSend webAudioSeekDemo (.seek (-3)) 0).1.ctx.currentTime = rmax 0 (-3)) ∧
    (isUsingWebAudio htmlSeekDemo.ctx = false ∧
      htmlSeekDemo.ctx.audio.isSome ∧
      (trackSend htmlSeekDemo (.seek (-3)) 0).1.ctx.currentTime = rmax 0 (-3)) :=
  ⟨⟨by decide, by decide,
      (seek_stores_lower_clamped_target webAudioSeekDemo (-3) 0).1 (by decide) (by decide)⟩,
    ⟨by decide, by decide,
      (seek_stores_lower_clamped_target htmlSeekDemo (-3) 0).2 (by decide) (by decide)⟩⟩

/-! ## C5: SET_VOLUME -/

/-- C5 counterexample: on a fresh one-track queue, SET_VOLUME 0 is
stored (clamped) in the queue context but produces no child sends and
leaves the track volume at 1: the queue machine does not propagate
volume to the track units. -/
theorem setVolume_not_propagated :
    (queueSend ((queueInit ["a"] false 0).1) (.setVolumeEv 0) 0).1.ctx.volume
      = 0 ∧
    ((queueSend ((queueInit ["a"] false 0).1) (.setVolumeEv 0) 0).1.ctx.trackActors.map
      (fun a => a.st.ctx.volume)) = [1] ∧
    (queueSend ((queueInit ["a"] false 0).1) (.setVolumeEv 0) 0).2 = [] := by
  decide

/-- C5 amended: queue-level SET_VOLUME clamps v to [0,1] and stores it
at the queue level only, changing nothing else and sending nothing to
the track units; a SET_VOLUME delivered directly to a track machine
clamps and applies the value to its stored volume, the streaming
element volume and the gain value. -/
theorem setVolume_queue_level_and_track_level (qs : QState) (c : QueueContext)
    (s : TrackState) (v now : Rat) :
    (queueSend { qstate := qs, ctx := c } (.setVolumeEv v) now).1
      = { qstate := qs, ctx := { c with volume := clamp01 v } } ∧
    (queueSend { qstate := qs, ctx := c } (.setVolumeEv v) now).2 = [] ∧
    (trackSend s (.setVolumeEv v) now).1.ctx.volume = clamp01 v ∧
    (trackSend s (.setVolumeEv v) now).1.ctx.audio
      = s.ctx.audio.map (fun a => { a with volume := clamp01 v }) ∧
    (trackSend s (.setVolumeEv v) now).1.ctx.gainNode
      = s.ctx.gainNode.map (fun g => { g with gain := clamp01 v }) := by
  refine ⟨?_, ?_, ?_, ?_, ?_⟩
  · cases qs <;> simp [queueSend, queueDrain, queueStep1]
  · cases qs <;> simp [queueSend, queueDrain, queueStep1]
  all_goals
    unfold trackSend trackDrain trackStep1 setTrackVolume
    cases ha : s.ctx.audio <;> cases hg : s.ctx.gainNode <;>
      simp [ha, hg, trackDrain]

/-! ## C6: REMOVE_TRACK -/

theorem findIndexAid_lt_length (a : Nat) (l : List TrackActorInst) (k : Nat)
    (h : findIndexAid a l = some k) : k < l.length := by
  induction l generalizing k with
  | nil => simp [findIndexAid] at h
  | cons t rest ih =>
      by_cases ht : t.aid = a
      · simp [findIndexAid, ht] at h
        simp
        omega
      · simp [findIndexAid, ht] at h
        obtain ⟨k0, hk0, hk1⟩ := h
        have := ih k0 hk0
        simp
        omega

/-- C6 counterexample: on a three-track queue pointing at index 1,
removing the track at index 0 (which is at or before currentIndex)
leaves currentTrackIdx at 1 instead of decrementing it, so the index no
longer points at the same track (it now points at the former third
track). -/
theorem removeTrack_does_not_decrement :
    ((queueSend ((queueInit ["a", "b", "c"] false 0).1) (.gotoEv 1 false) 0).1.ctx.currentTrackIdx
      = 1) ∧
    (queueSend (queueSend ((queueInit ["a", "b", "c"] false 0).1) (.gotoEv 1 false) 0).1
        (.removeTrackEv 0) 0).1.ctx.currentTrackIdx = 1 ∧
    ((queueSend (queueSend ((queueInit ["a", "b", "c"] false 0).1) (.gotoEv 1 false) 0).1
        (.removeTrackEv 0) 0).1.ctx.trackActors.map (fun t => t.aid)) = [1, 2] := by
  decide

/-- C6 amended: REMOVE_TRACK locates the unit by identity and splices
it out of both lists; currentTrackIdx is moved (to the new last index)
only when it would fall at or past the new length while positive —
removing a track at or before currentTrackIdx does not decrement it —
and the bounds invariant 0 ≤ currentTrackIdx < remaining count still
holds whenever the index was non-negative and the queue stays
non-empty. -/
theorem removeTrack_splices_and_stays_in_bounds (qs : QState) (c : QueueContext)
    (a k : Nat) (now : Rat) (hk : findIndexAid a c.trackActors = some k) :
    (queueSend { qstate := qs, ctx := c } (.removeTrackEv a) now).1.qstate = qs ∧
    (queueSend { qstate := qs, ctx := c } (.removeTrackEv a) now).1.ctx.trackActors
      = c.trackActors.eraseIdx k ∧
    (queueSend { qstate := qs, ctx := c } (.removeTrackEv a) now).1.ctx.tracks
      = c.tracks.eraseIdx k ∧
    (queueSend { qstate := qs, ctx := c } (.removeTrackEv a) now).1.ctx.currentTrackIdx
      = (if (c.trackActors.length : Int) - 1 ≤ c.currentTrackIdx ∧ 0 < c.currentTrackIdx
          then (c.trackActors.length : Int) - 2 else c.currentTrackIdx) ∧
    (0 ≤ c.currentTrackIdx →
      1 ≤ (queueSend { qstate := qs, ctx := c } (.removeTrackEv a) now).1.ctx.trackActors.length →
      0 ≤ (queueSend { qstate := qs, ctx := c } (.removeTrackEv a) now).1.ctx.currentTrackIdx ∧
      (queueSend { qstate := qs, ctx := c } (.removeTrackEv a) now).1.ctx.currentTrackIdx
        < ((queueSend { qstate := qs, ctx := c } (.removeTrackEv a) now).1.ctx.trackActors.length : Int)) := by
  have hq : (queueSend { qstate := qs, ctx := c } (.removeTrackEv a) now).1
      = { qstate := qs, ctx := removeTrackAct c a } := by
    cases qs <;> simp [queueSend, queueDrain, queueStep1]
  have hkl := findIndexAid_lt_length a c.trackActors k hk
  have herase : (c.trackActors.eraseIdx k).length = c.trackActors.length - 1 :=
    List.length_eraseIdx_of_lt hkl
  rw [hq]
  simp only [removeTrackAct, hk]
  refine ⟨trivial, trivial, trivial, ?_, ?_⟩
  · split_ifs <;> omega
  · intro h0 h1
    rw [herase] at h1 ⊢
    split_ifs <;> constructor <;> omega

/-- Witness for C6 amended on a concrete two-track queue. -/
theorem removeTrack_splices_and_stays_in_bounds_witness :
    findIndexAid 1 ((queueInit ["a", "b"] false 0).1.ctx.trackActors) = some 1 ∧
    (queueSend { qstate := QState.paused, ctx := (queueInit ["a", "b"] false 0).1.ctx }
        (.removeTrackEv 1) 0).1.qstate = QState.paused :=
  ⟨by decide,
    (removeTrack_splices_and_stays_in_bounds .paused ((queueInit ["a", "b"] false 0).1.ctx)
      1 1 0 (by decide)).1⟩

/-! ## C8: WEBAUDIO_ERROR recovery -/

/-- C8: a WEBAUDIO_ERROR in loadingWebAudio is a total transition back
to the html (streaming) state that only logs: the playback dimension
and the whole extended context are untouched and no effect is emitted;
with web audio still enabled, an audio context present and no decoded
buffer, a later LOAD_WEBAUDIO starts the pipeline again. -/
theorem webAudioError_recovers_to_html (s : TrackState) (now : Rat)
    (hs : s.src = .loadingWebAudio) :
    (trackSend s .webAudioError now).1.src = .html ∧
    (trackSend s .webAudioError now).1.playback = s.playback ∧
    (trackSend s .webAudioError now).1.ctx = s.ctx ∧
    (trackSend s .webAudioError now).2 = [] ∧
    (s.ctx.webAudioIsDisabled = false → s.ctx.hasAudioContext = true →
      s.ctx.audioBuffer = none →
      (trackSend (trackSend s .webAudioError now).1 .loadWebAudio now).1.src
        = .loadingWebAudio) := by
  refine ⟨?_, ?_, ?_, ?_, ?_⟩ <;>
    simp [trackSend, trackDrain, trackStep1, hs]
  intro h1 h2 h3
  simp [trackSend, trackDrain, trackStep1, canUseWebAudio, h1, h2, h3]

/-- Witness for C8 on a concrete loading track. -/
theorem webAudioError_recovers_to_html_witness :
    ((trackInit "a" 0 1 false).src = AudioSrc.loadingWebAudio → False) ∧
    (trackSend { trackInit "a" 0 1 false with src := .loadingWebAudio }
        .webAudioError 0).1.src = .html :=
  ⟨by decide,
    (webAudioError_recovers_to_html
      { trackInit "a" 0 1 false with src := .loadingWebAudio } 0 rfl).1⟩

/-! ## C3: auto-advance on TRACK_ENDED -/

@[simp] theorem actorAt_natCast (c : QueueContext) (i : Nat) :
    actorAt c (i : Int) = c.trackActors.get? i := by
  simp [actorAt]

@[simp] theorem toNat_natCast_add_one (i : Nat) : ((i : Int) + 1).toNat = i + 1 := by
  omega

@[simp] theorem toNat_natCast_add_two (i : Nat) : ((i : Int) + 1 + 1).toNat = i + 2 := by
  omega

theorem sendToTrackAt_some (c : QueueContext) (i : Int) (e : TrackEvent) (now : Rat)
    (a : TrackActorInst) (ha : actorAt c i = some a) :
    sendToTrackAt c i e now =
      ({ c with trackActors := c.trackActors.set i.toNat { a with st := (trackSend a.st e now).1 } },
        QFx.sendTrk i.toNat e :: (trackSend a.st e now).2.map (QFx.trkFx i.toNat)) := by
  unfold sendToTrackAt
  rw [ha]

theorem trackStep1_src_event (s : TrackState) (e : TrackEvent) (now : Rat)
    (he : e = TrackEvent.switchToWebAudio ∨ e = TrackEvent.loadWebAudio) :
    (trackStep1 s e now).1.playback = s.playback ∧ (trackStep1 s e now).2.2 = [] := by
  rcases he with rfl | rfl <;> cases hs : s.src <;>
    simp [trackStep1, hs] <;> split_ifs <;> simp

theorem trackDrain_src_events (n : Nat) (s : TrackState) (q : List TrackEvent) (now : Rat)
    (hq : ∀ e ∈ q, e = TrackEvent.switchToWebAudio ∨ e = TrackEvent.loadWebAudio) :
    (trackDrain n s q now).1.playback = s.playback := by
  induction n generalizing s q with
  | zero => rfl
  | succ n ih =>
      cases q with
      | nil => rfl
      | cons e rest =>
          have he := hq e (by simp)
          have h1 := trackStep1_src_event s e now he
          rw [trackDrain]
          simp only [h1.2, List.append_nil]
          rw [ih (trackStep1 s e now).1 rest (fun x hx => hq x (by simp [hx]))]
          exact h1.1

theorem startPlayback_queue_cases (c : TrackContext) :
    (startPlayback c).2 = [TrackEvent.switchToWebAudio] ∨
    (startPlayback c).2 = [TrackEvent.loadWebAudio] ∨
    (startPlayback c).2 = [] := by
  unfold startPlayback
  by_cases h1 : c.audioBuffer ≠ none ∧ c.webAudioIsDisabled = false
  · rw [if_pos h1]
    simp
  · rw [if_neg h1]
    cases hc : c.audio
    · simp
    · by_cases h2 : c.webAudioIsDisabled = false <;> simp [h2]

theorem startPlayback_queue (c : TrackContext) (e : TrackEvent)
    (he : e ∈ (startPlayback c).2) :
    e = TrackEvent.switchToWebAudio ∨ e = TrackEvent.loadWebAudio := by
  rcases startPlayback_queue_cases c with h | h | h <;> rw [h] at he <;>
    simp at he <;> simp [he]

/-- Delivering PLAY to any track machine state leaves its playback
region in playing. -/
theorem trackSend_play_playback (s : TrackState) (now : Rat) :
    (trackSend s .play now).1.playback = .playing := by
  unfold trackSend
  rw [trackDrain]
  cases hp : s.playback with
  | playing => simp [trackStep1, hp, trackDrain]
  | paused =>
      by_cases hw : isUsingWebAudio s.ctx = true
      · simp [trackStep1, hp, hw, trackDrain]
      · simp only [trackStep1, hp, hw, Bool.false_eq_true, if_false, if_neg]
        exact (trackDrain_src_events 7 _ _ now
          (fun e he => startPlayback_queue _ e he)).trans rfl

theorem trackSend_activate_playback (s : TrackState) (now : Rat) :
    (trackSend s .activate now).1.playback = s.playback := by
  unfold trackSend
  rw [trackDrain]
  cases hp : s.playback <;> simp [trackStep1, hp, trackDrain]

/-- C3: while playing, a TRACK_ENDED from a non-last track auto
advances: a DEACTIVATE is sent to the ending unit, currentTrackIdx
becomes i+1, ACTIVATE and PLAY are sent to unit i+1 (leaving it in
playback state playing), the queue stays playing, and when a unit i+2
exists it is sent a PRELOAD. -/
theorem track_ended_auto_advances (c : QueueContext) (i : Nat) (a0 a1 : TrackActorInst)
    (now : Rat)
    (hidx : c.currentTrackIdx = (i : Int))
    (ha0 : c.trackActors.get? i = some a0)
    (ha1 : c.trackActors.get? (i + 1) = some a1) :
    (queueSend { qstate := .playing, ctx := c } .trackEnded now).1.qstate = .playing ∧
    (queueSend { qstate := .playing, ctx := c } .trackEnded now).1.ctx.currentTrackIdx
      = (i : Int) + 1 ∧
    QFx.sendTrk i .deactivate ∈ (queueSend { qstate := .playing, ctx := c } .trackEnded now).2 ∧
    QFx.sendTrk (i + 1) .activate ∈ (queueSend { qstate := .playing, ctx := c } .trackEnded now).2 ∧
    QFx.sendTrk (i + 1) .play ∈ (queueSend { qstate := .playing, ctx := c } .trackEnded now).2 ∧
    (∀ b, (queueSend { qstate := .playing, ctx := c } .trackEnded now).1.ctx.trackActors.get? (i + 1)
        = some b → b.st.playback = .playing) ∧
    (i + 2 < c.trackActors.length →
      QFx.sendTrk (i + 2) .preloadEv
        ∈ (queueSend { qstate := .playing, ctx := c } .trackEnded now).2) := by
  have hi1 : i + 1 < c.trackActors.length := by
    by_contra h
    rw [List.get?_eq_none.mpr (by omega)] at ha1
    exact Option.noConfusion ha1
  have hlast : isLastTrack c = false := by
    simp only [isLastTrack, hidx, decide_eq_false_iff_not]
    omega
  have hq : queueSend { qstate := .playing, ctx := c } .trackEnded now =
      ({ qstate := .playing, ctx := (autoAdvanceToNext c now).1 },
        (autoAdvanceToNext c now).2) := by
    simp [queueSend, queueDrain, queueStep1, hlast]
  rw [hq]
  unfold autoAdvanceToNext
  simp only [hidx]
  have ha0' : actorAt c (i : Int) = some a0 := by rw [actorAt_natCast]; exact ha0
  rw [sendToTrackAt_some c (i : Int) .deactivate now a0 ha0']
  simp only [Int.toNat_natCast]
  try dsimp only
  set A0 : TrackActorInst := { a0 with st := (trackSend a0.st TrackEvent.deactivate now).1 }
    with hA0
  set L1 : List TrackActorInst := c.trackActors.set i A0 with hL1
  try dsimp only
  simp only [hidx]
  have hlen1 : L1.length = c.trackActors.length := by rw [hL1]; simp
  have hcond1 : ((i : Int) + 1 < (L1.length : Int)) := by
    rw [hlen1]; exact_mod_cast hi1
  rw [if_pos hcond1]
  have hcast1 : ((i : Int) + 1) = ((i + 1 : Nat) : Int) := by push_cast; ring
  have ha1' : actorAt { c with currentTrackIdx := (i : Int), trackActors := L1 }
      ((i : Int) + 1) = some a1 := by
    rw [hcast1, actorAt_natCast]
    show L1.get? (i + 1) = some a1
    rw [hL1, List.get?_set_of_lt _ _ hi1, if_neg (by omega)]
    exact ha1
  rw [sendToTrackAt_some _ _ .activate now a1 ha1']
  simp only [toNat_natCast_add_one]
  try dsimp only
  set A1 : TrackActorInst := { a1 with st := (trackSend a1.st TrackEvent.activate now).1 }
    with hA1
  set L2 : List TrackActorInst := L1.set (i + 1) A1 with hL2
  try dsimp only
  have hlen2 : L2.length = c.trackActors.length := by rw [hL2]; simp [hlen1]
  have hL1len : i + 1 < L1.length := by rw [hlen1]; exact hi1
  have ha2' : actorAt { c with currentTrackIdx := (i : Int), trackActors := L2 }
      ((i : Int) + 1) = some A1 := by
    rw [hcast1, actorAt_natCast]
    show L2.get? (i + 1) = some A1
    rw [hL2, List.get?_set_of_lt _ _ hL1len, if_pos rfl]
  rw [sendToTrackAt_some _ _ .play now A1 ha2']
  simp only [toNat_natCast_add_one]
  try dsimp only
  set A2 : TrackActorInst := { A1 with st := (trackSend A1.st TrackEvent.play now).1 }
    with hA2
  set L3 : List TrackActorInst := L2.set (i + 1) A2 with hL3
  try dsimp only
  have hlen3 : L3.length = c.trackActors.length := by rw [hL3]; simp [hlen2]
  have hL2len : i + 1 < L2.length := by rw [hlen2]; exact hi1
  have hget3 : L3.get? (i + 1) = some A2 := by
    rw [hL3, List.get?_set_of_lt _ _ hL2len, if_pos rfl]
  by_cases h2 : i + 2 < c.trackActors.length
  · have hcond2 : ((i : Int) + 1 + 1 < (L3.length : Int)) := by
      rw [hlen3]
      omega
    rw [if_pos hcond2]
    obtain ⟨a3, ha3⟩ : ∃ x, c.trackActors.get? (i + 2) = some x := by
      cases h : c.trackActors.get? (i + 2) with
      | none =>
          rw [List.get?_eq_none] at h
          omega
      | some x => exact ⟨x, rfl⟩
    have hcast2 : ((i : Int) + 1 + 1) = ((i + 2 : Nat) : Int) := by push_cast; ring
    have ha3' : actorAt { c with currentTrackIdx := (i : Int), trackActors := L3 }
        ((i : Int) + 1 + 1) = some a3 := by
      rw [hcast2, actorAt_natCast]
      show L3.get? (i + 2) = some a3
      rw [hL3, List.get?_set_of_lt _ _ (by rw [hlen2]; exact h2), if_neg (by omega),
        hL2, List.get?_set_of_lt _ _ (by rw [hlen1]; exact h2), if_neg (by omega),
        hL1, List.get?_set_of_lt _ _ h2, if_neg (by omega)]
      exact ha3
    rw [sendToTrackAt_some _ _ .preloadEv now a3 ha3']
    simp only [toNat_natCast_add_two]
    try dsimp only
    set A3 : TrackActorInst := { a3 with st := (trackSend a3.st TrackEvent.preloadEv now).1 }
      with hA3
    set L4 : List TrackActorInst := L3.set (i + 2) A3 with hL4
    try dsimp only
    refine ⟨by trivial, by trivial, by simp, by simp, by simp, ?_, fun _ => by simp⟩
    intro b hb
    have hL3len : i + 1 < L3.length := by rw [hlen3]; exact hi1
    simp only [hL4] at hb
    rw [List.get?_set_of_lt _ _ hL3len, if_neg (by omega), hget3] at hb
    cases hb
    rw [hA2]
    exact trackSend_play_playback _ _
  · have hcond2 : ¬ ((i : Int) + 1 + 1 < (L3.length : Int)) := by
      rw [hlen3]
      omega
    rw [if_neg hcond2]
    try dsimp only
    refine ⟨by trivial, by trivial, by simp, by simp, by simp, ?_, fun hh => absurd hh h2⟩
    intro b hb
    rw [hget3] at hb
    cases hb
    rw [hA2]
    exact trackSend_play_playback _ _

/-- A three-track queue that has been set playing, for concrete runs. -/
def advanceDemoQueue : QueueContext :=
  (queueSend ((queueInit ["a", "b", "c"] false 0).1) .playEv 0).1.ctx

/-- The first actor of the demo queue after PLAY. -/
def advanceDemoA0 : TrackActorInst :=
  (advanceDemoQueue.trackActors.getD 0 { aid := 0, st := trackInit "x" 0 1 false })

/-- The second actor of the demo queue after PLAY. -/
def advanceDemoA1 : TrackActorInst :=
  (advanceDemoQueue.trackActors.getD 1 { aid := 0, st := trackInit "x" 0 1 false })

/-- Witness for C3 on the concrete three-track playing queue. -/
theorem track_ended_auto_advances_witness :
    advanceDemoQueue.currentTrackIdx = ((0 : Nat) : Int) ∧
    advanceDemoQueue.trackActors.get? 0 = some advanceDemoA0 ∧
    advanceDemoQueue.trackActors.get? 1 = some advanceDemoA1 ∧
    (queueSend { qstate := .playing, ctx := advanceDemoQueue } .trackEnded 0).1.qstate
      = .playing :=
  ⟨by decide, by decide, by decide,
    (track_ended_auto_advances advanceDemoQueue 0 advanceDemoA0 advanceDemoA1 0
      (by decide) (by decide) (by decide)).1⟩

/-! ## C7: PREVIOUS and the 8-second grace threshold -/

/-- C7: in the playing and paused states, a PREVIOUS with the current
track beyond 8s seeks the current track to 0, changes no index and
deactivates nothing; at or below 8s it deactivates the current unit and
moves currentTrackIdx to the previous index clamped at 0, leaving the
queue playback state unchanged. -/
theorem previous_restarts_or_decrements (c : QueueContext) (i : Nat)
    (a : TrackActorInst) (now : Rat) (qs : QState)
    (hqs : qs = QState.playing ∨ qs = QState.paused)
    (hidx : c.currentTrackIdx = (i : Int))
    (ha : c.trackActors.get? i = some a) :
    (8 < a.st.ctx.currentTime →
      (queueSend { qstate := qs, ctx := c } .previousEv now).1.qstate = qs ∧
      (queueSend { qstate := qs, ctx := c } .previousEv now).1.ctx.currentTrackIdx
        = (i : Int) ∧
      QFx.sendTrk i (.seek 0) ∈ (queueSend { qstate := qs, ctx := c } .previousEv now).2 ∧
      (∀ p, QFx.sendTrk p .deactivate ∉
        (queueSend { qstate := qs, ctx := c } .previousEv now).2)) ∧
    (a.st.ctx.currentTime ≤ 8 →
      (queueSend { qstate := qs, ctx := c } .previousEv now).1.qstate = qs ∧
      (queueSend { qstate := qs, ctx := c } .previousEv now).1.ctx.currentTrackIdx
        = imax 0 ((i : Int) - 1) ∧
      QFx.sendTrk i .deactivate ∈ (queueSend { qstate := qs, ctx := c } .previousEv now).2) := by
  have ha2 : c.trackActors[i]? = some a := by
    rw [← List.get?_eq_getElem?]
    exact ha
  have htime : currentActorTime c = a.st.ctx.currentTime := by
    simp [currentActorTime, hidx, ha2]
  have ha' : actorAt c (i : Int) = some a := by rw [actorAt_natCast]; exact ha
  rcases hqs with rfl | rfl
  · constructor
    · intro h8
      have hcond : 8 < currentActorTime c := by rw [htime]; exact h8
      have hact : playPreviousAct c now =
          ((sendToTrackAt c c.currentTrackIdx (.seek 0) now).1,
            (sendToTrackAt c c.currentTrackIdx (.seek 0) now).2, []) := by
        unfold playPreviousAct
        rw [if_pos hcond]
      simp only [queueSend, queueDrain, queueStep1, hact, List.append_nil, List.nil_append]
      rw [hidx, sendToTrackAt_some c (i : Int) (.seek 0) now a ha']
      simp only [Int.toNat_natCast]
      refine ⟨by trivial, by simp [hidx], by simp, ?_⟩
      intro p
      simp
    · intro h8
      have hcond : ¬ (8 < currentActorTime c) := by rw [htime]; exact not_lt.mpr h8
      have hact : playPreviousAct c now =
          ((sendToTrackAt c c.currentTrackIdx .deactivate now).1,
            (sendToTrackAt c c.currentTrackIdx .deactivate now).2 ++ [QFx.cbPlayPreviousTrack],
            [QueueEvent.gotoEv
              (imax 0 ((sendToTrackAt c c.currentTrackIdx .deactivate now).1.currentTrackIdx - 1))
              false,
             QueueEvent.playEv]) := by
        unfold playPreviousAct
        rw [if_neg hcond]
      simp only [queueSend, queueDrain, queueStep1, hact, sendToTrackAt_currentTrackIdx,
        List.append_nil, List.nil_append, gotoActionsPlay_currentTrackIdx, hidx]
      rw [sendToTrackAt_some c (i : Int) .deactivate now a ha']
      simp only [Int.toNat_natCast]
      refine ⟨by trivial, by trivial, by simp⟩
  · constructor
    · intro h8
      have hcond : 8 < currentActorTime c := by rw [htime]; exact h8
      have hact : gotoPreviousAct c now =
          ((sendToTrackAt c c.currentTrackIdx (.seek 0) now).1,
            (sendToTrackAt c c.currentTrackIdx (.seek 0) now).2, []) := by
        unfold gotoPreviousAct
        rw [if_pos hcond]
      simp only [queueSend, queueDrain, queueStep1, hact, List.append_nil, List.nil_append]
      rw [hidx, sendToTrackAt_some c (i : Int) (.seek 0) now a ha']
      simp only [Int.toNat_natCast]
      refine ⟨by trivial, by simp [hidx], by simp, ?_⟩
      intro p
      simp
    · intro h8
      have hcond : ¬ (8 < currentActorTime c) := by rw [htime]; exact not_lt.mpr h8
      have hact : gotoPreviousAct c now =
          ((sendToTrackAt c c.currentTrackIdx .deactivate now).1,
            (sendToTrackAt c c.currentTrackIdx .deactivate now).2 ++ [QFx.cbPlayPreviousTrack],
            [QueueEvent.gotoEv
              (imax 0 ((sendToTrackAt c c.currentTrackIdx .deactivate now).1.currentTrackIdx - 1))
              false]) := by
        unfold gotoPreviousAct
        rw [if_neg hcond]
      simp only [queueSend, queueDrain, queueStep1, hact, sendToTrackAt_currentTrackIdx,
        List.append_nil, List.nil_append, gotoActionsPaused_currentTrackIdx, hidx]
      rw [sendToTrackAt_some c (i : Int) .deactivate now a ha']
      simp only [Int.toNat_natCast]
      refine ⟨by trivial, by trivial, by simp⟩

/-- Witness for C7 on the concrete playing queue (track 0 position 0,
within the grace threshold). -/
theorem previous_restarts_or_decrements_witness :
    advanceDemoQueue.trackActors.get? 0 = some advanceDemoA0 ∧
    advanceDemoA0.st.ctx.currentTime ≤ 8 ∧
    (queueSend { qstate := .playing, ctx := advanceDemoQueue } .previousEv 0).1.qstate
      = .playing :=
  ⟨by decide, by decide,
    ((previous_restarts_or_decrements advanceDemoQueue 0 advanceDemoA0 0 .playing
      (Or.inl rfl) (by decide) (by decide)).2 (by decide)).1⟩

/-! ## C9: buffer-source handles are never started twice

The effect trace of the track machine records every createBufferSource,
start, stop and listener-detach call with the handle id.  We prove the
freshness discipline: along any event sequence from the initial state,
every start call targets a handle id at or above the running counter,
so no id is ever started twice; and every stop call on a handle is
immediately preceded in the trace by the detach of its onended
listener. -/

/-- The handle ids of the start calls in a trace. -/
def startsIn (l : List Fx) : List Nat :=
  l.filterMap fun f => match f with
    | .startNode i => some i
    | _ => none

/-- Every stop call is immediately preceded by the detach of the same
handle id. -/
def detachedBeforeStop (l : List Fx) : Prop :=
  ∀ n i, l.get? n = some (Fx.stopNode i) →
    ∃ m, m + 1 = n ∧ l.get? m = some (Fx.detachOnEnded i)

/-- Well-formedness of one trace segment relative to the fresh-id
counter before (n0) and after (n1): starts lie in [n0, n1) and are
distinct, and stops are detached first. -/
def FxOk (n0 n1 : Nat) (l : List Fx) : Prop :=
  n0 ≤ n1 ∧ (∀ i ∈ startsIn l, n0 ≤ i ∧ i < n1) ∧
    (startsIn l).Nodup ∧ detachedBeforeStop l

@[simp] theorem startsIn_nil : startsIn [] = [] := rfl

theorem startsIn_append (l1 l2 : List Fx) :
    startsIn (l1 ++ l2) = startsIn l1 ++ startsIn l2 := by
  simp [startsIn]

theorem detachedBeforeStop_nil : detachedBeforeStop [] := by
  intro n i h
  simp at h

theorem detachedBeforeStop_append (l1 l2 : List Fx)
    (h1 : detachedBeforeStop l1) (h2 : detachedBeforeStop l2) :
    detachedBeforeStop (l1 ++ l2) := by
  intro n i hn
  rcases Nat.lt_or_ge n l1.length with hlt | hge
  · rw [List.get?_append hlt] at hn
    obtain ⟨m, hm, hg⟩ := h1 n i hn
    exact ⟨m, hm, by rw [List.get?_append (by omega)]; exact hg⟩
  · rw [List.get?_append_right hge] at hn
    obtain ⟨m, hm, hg⟩ := h2 _ i hn
    refine ⟨l1.length + m, by omega, ?_⟩
    rw [List.get?_append_right (by omega)]
    simpa using hg

theorem FxOk_nil (n0 n1 : Nat) (h : n0 ≤ n1) : FxOk n0 n1 [] :=
  ⟨h, by simp, by simp, detachedBeforeStop_nil⟩

/-- A segment with no start and no stop calls is well formed for any
monotone counter step. -/
theorem FxOk_inert (n0 n1 : Nat) (l : List Fx) (h : n0 ≤ n1)
    (hs : startsIn l = []) (hn : ∀ i, Fx.stopNode i ∉ l) : FxOk n0 n1 l := by
  refine ⟨h, by simp [hs], by simp [hs], ?_⟩
  intro n i hget
  exact absurd (List.get?_mem hget) (hn i)

theorem FxOk_append (n0 n1 n2 : Nat) (l1 l2 : List Fx)
    (h1 : FxOk n0 n1 l1) (h2 : FxOk n1 n2 l2) : FxOk n0 n2 (l1 ++ l2) := by
  obtain ⟨hm1, hb1, hd1, hs1⟩ := h1
  obtain ⟨hm2, hb2, hd2, hs2⟩ := h2
  refine ⟨le_trans hm1 hm2, ?_, ?_, detachedBeforeStop_append _ _ hs1 hs2⟩
  · intro i hi
    rw [startsIn_append, List.mem_append] at hi
    rcases hi with hi | hi
    · have := hb1 i hi
      omega
    · have := hb2 i hi
      omega
  · rw [startsIn_append]
    refine List.Nodup.append hd1 hd2 ?_
    intro i hi1 hi2
    have := hb1 i hi1
    have := hb2 i hi2
    omega

theorem FxOk_stopFx (n : Nat) (i : Nat) : FxOk n n (stopFx i) := by
  refine ⟨le_refl n, by simp [stopFx, startsIn], by simp [stopFx, startsIn], ?_⟩
  intro m j hm
  match m, hm with
  | 1, hm =>
      simp [stopFx] at hm
      exact ⟨0, rfl, by simp [stopFx, hm]⟩

theorem createAndStartBufferSource_ok (c : TrackContext) (now t : Rat) :
    FxOk c.nextNodeId (createAndStartBufferSource c now t).1.nextNodeId
      (createAndStartBufferSource c now t).2 := by
  unfold createAndStartBufferSource
  split_ifs with h1 hg
  · exact FxOk_nil _ _ (le_refl _)
  all_goals
    dsimp only
    refine ⟨by omega, ?_, by simp [startsIn], ?_⟩
    · intro i hi
      simp [startsIn] at hi
      omega
    · intro n i hget
      have hmem := List.get?_mem hget
      simp at hmem

theorem createAndStartBufferSource_ok' (c : TrackContext) (now t : Rat) (n : Nat)
    (hn : c.nextNodeId = n) :
    FxOk n (createAndStartBufferSource c now t).1.nextNodeId
      (createAndStartBufferSource c now t).2 := by
  subst hn
  exact createAndStartBufferSource_ok c now t

theorem pausePlayback_ok (c : TrackContext) (now : Rat) :
    (pausePlayback c now).1.nextNodeId = c.nextNodeId ∧
    FxOk c.nextNodeId c.nextNodeId (pausePlayback c now).2 := by
  unfold pausePlayback
  cases hb : c.bufferSourceNode with
  | some i =>
      cases hc : c.hasAudioContext with
      | true => exact ⟨rfl, FxOk_stopFx _ _⟩
      | false =>
          cases ha : c.audio with
          | none => exact ⟨rfl, FxOk_nil _ _ (le_refl _)⟩
          | some a => exact ⟨rfl, FxOk_nil _ _ (le_refl _)⟩
  | none =>
      cases ha : c.audio with
      | none => exact ⟨rfl, FxOk_nil _ _ (le_refl _)⟩
      | some a => exact ⟨rfl, FxOk_nil _ _ (le_refl _)⟩

theorem destroyAudioElement_ok (c : TrackContext) :
    (destroyAudioElement c).1.nextNodeId = c.nextNodeId ∧
    FxOk c.nextNodeId c.nextNodeId (destroyAudioElement c).2 := by
  unfold destroyAudioElement
  cases hb : c.bufferSourceNode with
  | some i => exact ⟨rfl, FxOk_stopFx _ _⟩
  | none => exact ⟨rfl, FxOk_nil _ _ (le_refl _)⟩

theorem cleanupWebAudio_ok (c : TrackContext) :
    (cleanupWebAudio c).1.nextNodeId = c.nextNodeId ∧
    FxOk c.nextNodeId c.nextNodeId (cleanupWebAudio c).2 := by
  unfold cleanupWebAudio
  cases hb : c.bufferSourceNode with
  | some i => exact ⟨rfl, FxOk_stopFx _ _⟩
  | none => exact ⟨rfl, FxOk_nil _ _ (le_refl _)⟩

theorem seekWebAudio_ok (c : TrackContext) (now t : Rat) :
    FxOk c.nextNodeId (seekWebAudio c now t).1.nextNodeId (seekWebAudio c now t).2 := by
  unfold seekWebAudio
  by_cases h1 : (c.audioBuffer = none ∨ c.hasAudioContext = false)
  · rw [if_pos h1]
    exact FxOk_nil _ _ (le_refl _)
  · rw [if_neg h1]
    cases hg : c.gainNode <;> cases hb : c.bufferSourceNode <;> dsimp only <;>
      simp only [hg, hb, reduceIte, ne_eq, reduceCtorEq, not_false_eq_true,
        not_true_eq_false, if_true, if_false] <;>
      first
        | exact FxOk_nil _ _ (le_refl _)
        | exact createAndStartBufferSource_ok' _ _ _ _ rfl
        | exact FxOk_append _ _ _ _ _ (FxOk_stopFx _ _)
            (createAndStartBufferSource_ok' _ _ _ _ rfl)

theorem setupWebAudio_ok (c : TrackContext) (now : Rat) :
    FxOk c.nextNodeId (setupWebAudio c now).1.nextNodeId (setupWebAudio c now).2 := by
  unfold setupWebAudio
  by_cases h1 : (c.hasAudioContext = false ∨ c.audioBuffer = none ∨ c.gainNode = none)
  · rw [if_pos h1]
    exact FxOk_nil _ _ (le_refl _)
  · rw [if_neg h1]
    cases ha : c.audio <;> dsimp only <;> split_ifs <;>
      first
        | exact FxOk_nil _ _ (le_refl _)
        | exact createAndStartBufferSource_ok' _ _ _ _ rfl

theorem FxOk_of_eq (n0 n1 n1' : Nat) (l : List Fx) (h : FxOk n0 n1 l)
    (he : n1 = n1') : FxOk n0 n1' l := he ▸ h

theorem createAudioElementIfNeeded_nextNodeId (c : TrackContext) :
    (createAudioElementIfNeeded c).nextNodeId = c.nextNodeId := by
  unfold createAudioElementIfNeeded
  dsimp only
  split_ifs <;> rfl

theorem startPlayback_nextNodeId (c : TrackContext) :
    (startPlayback c).1.nextNodeId = c.nextNodeId := by
  unfold startPlayback
  split_ifs <;> first | rfl | (cases ha : c.audio <;> rfl)

theorem seekHTML5_nextNodeId (c : TrackContext) (t : Rat) :
    (seekHTML5 c t).nextNodeId = c.nextNodeId := by
  unfold seekHTML5
  cases ha : c.audio <;> rfl

theorem setTrackVolume_nextNodeId (c : TrackContext) (v : Rat) :
    (setTrackVolume c v).nextNodeId = c.nextNodeId := by
  unfold setTrackVolume
  dsimp only
  cases ha : c.audio <;> cases hg : c.gainNode <;> rfl

theorem updateProgress_nextNodeId (c : TrackContext) (now : Rat) :
    (updateProgress c now).nextNodeId = c.nextNodeId := rfl

theorem pausePlayback_ok' (c : TrackContext) (now : Rat) (n : Nat)
    (hn : c.nextNodeId = n) :
    (pausePlayback c now).1.nextNodeId = n ∧
    FxOk n n (pausePlayback c now).2 := by
  subst hn
  exact pausePlayback_ok c now

theorem destroyAudioElement_ok' (c : TrackContext) (n : Nat)
    (hn : c.nextNodeId = n) :
    (destroyAudioElement c).1.nextNodeId = n ∧
    FxOk n n (destroyAudioElement c).2 := by
  subst hn
  exact destroyAudioElement_ok c

theorem cleanupWebAudio_ok' (c : TrackContext) (n : Nat)
    (hn : c.nextNodeId = n) :
    (cleanupWebAudio c).1.nextNodeId = n ∧
    FxOk n n (cleanupWebAudio c).2 := by
  subst hn
  exact cleanupWebAudio_ok c

theorem setupWebAudio_ok' (c : TrackContext) (now : Rat) (n : Nat)
    (hn : c.nextNodeId = n) :
    FxOk n (setupWebAudio c now).1.nextNodeId (setupWebAudio c now).2 := by
  subst hn
  exact setupWebAudio_ok c now

theorem seekWebAudio_ok' (c : TrackContext) (now t : Rat) (n : Nat)
    (hn : c.nextNodeId = n) :
    FxOk n (seekWebAudio c now t).1.nextNodeId (seekWebAudio c now t).2 := by
  subst hn
  exact seekWebAudio_ok c now t

/-- One step of the track machine is trace well formed: its starts are
fresh (at or above the incoming counter, below the outgoing one),
pairwise distinct, and its stops are preceded by their detach. -/
theorem trackStep1_ok (s : TrackState) (e : TrackEvent) (now : Rat) :
    FxOk s.ctx.nextNodeId (trackStep1 s e now).1.ctx.nextNodeId (trackStep1 s e now).2.1 := by
  cases e with
  | activate =>
      cases hp : s.playback <;> simp only [trackStep1, hp]
      · exact FxOk_nil _ _ (le_of_eq (createAudioElementIfNeeded_nextNodeId s.ctx).symm)
      · exact FxOk_nil _ _ (le_refl _)
  | deactivate =>
      simp only [trackStep1]
      cases hs : s.src <;> cases hp : s.playback <;> dsimp only <;>
        try simp only [List.nil_append]
      · exact FxOk_of_eq _ _ _ _ (destroyAudioElement_ok s.ctx).2
          (destroyAudioElement_ok s.ctx).1.symm
      · have h2 := pausePlayback_ok' s.ctx now _ rfl
        have h3 := destroyAudioElement_ok' (pausePlayback s.ctx now).1 _ h2.1
        exact FxOk_of_eq _ _ _ _
          (FxOk_append _ _ _ _ _ h2.2 h3.2) h3.1.symm
      · exact FxOk_of_eq _ _ _ _ (destroyAudioElement_ok s.ctx).2
          (destroyAudioElement_ok s.ctx).1.symm
      · have h2 := pausePlayback_ok' s.ctx now _ rfl
        have h3 := destroyAudioElement_ok' (pausePlayback s.ctx now).1 _ h2.1
        exact FxOk_of_eq _ _ _ _
          (FxOk_append _ _ _ _ _ h2.2 h3.2) h3.1.symm
      · have h1 := cleanupWebAudio_ok' s.ctx _ rfl
        have h3 := destroyAudioElement_ok' (cleanupWebAudio s.ctx).1 _ h1.1
        exact FxOk_of_eq _ _ _ _
          (FxOk_append _ _ _ _ _ h1.2 h3.2) h3.1.symm
      · have h1 := cleanupWebAudio_ok' s.ctx _ rfl
        have h2 := pausePlayback_ok' (cleanupWebAudio s.ctx).1 now _ h1.1
        have h3 := destroyAudioElement_ok' (pausePlayback (cleanupWebAudio s.ctx).1 now).1 _ h2.1
        exact FxOk_of_eq _ _ _ _
          (FxOk_append _ _ _ _ _ (FxOk_append _ _ _ _ _ h1.2 h2.2) h3.2) h3.1.symm
  | play =>
      cases hp : s.playback with
      | playing => simp only [trackStep1, hp]; exact FxOk_nil _ _ (le_refl _)
      | paused =>
          by_cases hw : isUsingWebAudio s.ctx = true <;>
            simp only [trackStep1, hp, hw, Bool.false_eq_true, if_true, if_false, if_neg]
          · exact createAndStartBufferSource_ok' _ _ _ _ rfl
          · exact FxOk_nil _ _ (le_of_eq (by
              rw [startPlayback_nextNodeId, createAudioElementIfNeeded_nextNodeId]))
  | pause =>
      cases hp : s.playback <;> simp only [trackStep1, hp]
      · exact FxOk_nil _ _ (le_refl _)
      · have h2 := pausePlayback_ok' s.ctx now _ rfl
        exact FxOk_of_eq _ _ _ _ h2.2 h2.1.symm
  | ended =>
      cases hp : s.playback <;> simp only [trackStep1, hp]
      · exact FxOk_nil _ _ (le_refl _)
      · exact FxOk_inert _ _ _ (le_refl _) (by simp [handleEnded, startsIn])
          (by intro i; simp [handleEnded])
  | seek t =>
      by_cases hw : isUsingWebAudio s.ctx = true <;>
        simp only [trackStep1, hw, Bool.false_eq_true, if_true, if_false, if_neg]
      · exact seekWebAudio_ok' _ _ _ _ rfl
      · exact FxOk_nil _ _ (le_of_eq (seekHTML5_nextNodeId s.ctx t).symm)
  | setVolumeEv v =>
      exact FxOk_nil _ _ (le_of_eq (setTrackVolume_nextNodeId s.ctx v).symm)
  | preloadEv =>
      exact FxOk_nil _ _ (le_refl _)
  | loadWebAudio =>
      cases hs : s.src <;> simp only [trackStep1, hs]
      · split_ifs
        · exact FxOk_inert _ _ _ (le_refl _) (by simp [startsIn]) (by intro i; simp)
        · exact FxOk_nil _ _ (le_refl _)
      · exact FxOk_nil _ _ (le_refl _)
      · exact FxOk_nil _ _ (le_refl _)
  | switchToWebAudio =>
      cases hs : s.src <;> simp only [trackStep1, hs]
      · split_ifs
        · exact setupWebAudio_ok _ _
        · exact FxOk_nil _ _ (le_refl _)
      · exact FxOk_nil _ _ (le_refl _)
      · exact FxOk_nil _ _ (le_refl _)
  | webAudioLoaded b =>
      cases hs : s.src <;> simp only [trackStep1, hs]
      · exact FxOk_nil _ _ (le_refl _)
      · refine FxOk_append _ s.ctx.nextNodeId _ _ _ ?_ ?_
        · exact FxOk_inert _ _ _ (le_refl _) (by simp [storeWebAudioBuffer, startsIn])
            (by intro i; simp [storeWebAudioBuffer])
        · exact setupWebAudio_ok' _ _ _ rfl
      · exact FxOk_nil _ _ (le_refl _)
  | webAudioError =>
      cases hs : s.src <;> simp only [trackStep1, hs] <;>
        exact FxOk_nil _ _ (le_refl _)
  | progressTick =>
      cases hp : s.playback <;> simp only [trackStep1, hp]
      · exact FxOk_nil _ _ (le_refl _)
      · exact FxOk_inert _ _ _ (le_of_eq (updateProgress_nextNodeId s.ctx now).symm)
          (by simp [startsIn]) (by intro i; simp)

theorem trackDrain_ok (n : Nat) (s : TrackState) (q : List TrackEvent) (now : Rat) :
    FxOk s.ctx.nextNodeId (trackDrain n s q now).1.ctx.nextNodeId
      (trackDrain n s q now).2 := by
  induction n generalizing s q with
  | zero => exact FxOk_nil _ _ (le_refl _)
  | succ n ih =>
      cases q with
      | nil => exact FxOk_nil _ _ (le_refl _)
      | cons e rest =>
          rw [trackDrain]
          exact FxOk_append _ _ _ _ _ (trackStep1_ok s e now)
            (ih (trackStep1 s e now).1 (rest ++ (trackStep1 s e now).2.2))

theorem trackSend_ok (s : TrackState) (e : TrackEvent) (now : Rat) :
    FxOk s.ctx.nextNodeId (trackSend s e now).1.ctx.nextNodeId (trackSend s e now).2 :=
  trackDrain_ok 8 s [e] now

theorem runTrack_ok (s : TrackState) (es : List (TrackEvent × Rat)) :
    FxOk s.ctx.nextNodeId (runTrack s es).1.ctx.nextNodeId (runTrack s es).2 := by
  induction es generalizing s with
  | nil => exact FxOk_nil _ _ (le_refl _)
  | cons er rest ih =>
      rw [runTrack]
      exact FxOk_append _ _ _ _ _ (trackSend_ok s er.1 er.2) (ih (trackSend s er.1 er.2).1)

theorem count_startNode (l : List Fx) (i : Nat) :
    l.count (Fx.startNode i) = (startsIn l).count i := by
  induction l with
  | nil => rfl
  | cons f rest ih =>
      cases f <;> simp [startsIn, List.count_cons, ih, Fx.startNode.injEq]

/-- C9: along every event sequence delivered to a track machine from
its initial state, each buffer-source handle id receives at most one
start call (a stopped handle is never restarted; each precise-backend
start, resume or seek creates a fresh handle), and every stop call is
immediately preceded in the Web Audio call trace by the detach of that
handle onended listener. -/
theorem buffer_source_never_restarted (url : String) (idx : Nat) (vol : Rat)
    (disabled : Bool) (es : List (TrackEvent × Rat)) :
    (∀ i, ((runTrack (trackInit url idx vol disabled) es).2).count (Fx.startNode i) ≤ 1) ∧
    detachedBeforeStop (runTrack (trackInit url idx vol disabled) es).2 := by
  have h := runTrack_ok (trackInit url idx vol disabled) es
  constructor
  · intro i
    rw [count_startNode]
    exact List.nodup_iff_count_le_one.mp h.2.2.1 i
  · exact h.2.2.2

end Gapless
